import Mathlib

/-
Shallow embedding of `scripts/validate-github-actions.py` (function
`validate_workflow`), the structural validator for GitHub Actions workflow
documents, together with theorems settling the specification claims.

Modelling conventions:
* A parsed YAML document is a tree of mappings, sequences and scalars.
  Mapping keys in workflow documents are scalars; the two kinds that the
  validator ever distinguishes are strings and booleans (PyYAML parses the
  bare key `on` as the boolean True, which is why the source looks the
  trigger field up under both `"on"` and `True`).  Mappings are association
  lists in document order, as Python dicts preserve insertion order.
* Python truthiness (`not x`, `if x:`) is modelled by `truthy`.
* The messages appended to the `errors` list are f-string templates; they
  are modelled by the inductive `Msg`, and `Msg.render` produces the exact
  Python string of each template.
* Exceptions raised during rule evaluation (TypeError / AttributeError on a
  non-mapping top level or a non-mapping `jobs` value) are modelled by
  `Except.error ()`: in the source they are caught by the blanket
  `except Exception` handler, which reports failure without any findings.
* A YAML syntax error is raised by `yaml.safe_load` before any rule runs;
  `validate` therefore takes the parse outcome `Except String Yaml` as
  input and short-circuits on the error case.
-/

/-- Scalar mapping keys as they occur in workflow documents: strings, or the
boolean produced by the YAML 1.1 reading of the bare key `on`. -/
inductive Key where
  | str (s : String)
  | bool (b : Bool)
deriving DecidableEq

/-- Python `str()` of a key, as interpolated into f-string messages. -/
def Key.render : Key → String
  | Key.str s => s
  | Key.bool b => if b then "True" else "False"

/-- A parsed YAML tree: the generic structure returned by `yaml.safe_load`. -/
inductive Yaml where
  | null
  | bool (b : Bool)
  | int (n : Int)
  | str (s : String)
  | seq (xs : List Yaml)
  | map (kvs : List (Key × Yaml))

/-- Python truthiness of a YAML value (`if x:` / `not x`). -/
def truthy : Yaml → Bool
  | Yaml.null => false
  | Yaml.bool b => b
  | Yaml.int n => n != 0
  | Yaml.str s => s != ""
  | Yaml.seq xs => !xs.isEmpty
  | Yaml.map kvs => !kvs.isEmpty

/-- Python truthiness of a `dict.get` result (`None` for an absent key). -/
def pyTruthy : Option Yaml → Bool
  | none => false
  | some v => truthy v

/-- Whether a YAML value is a mapping (`isinstance(x, dict)`). -/
def Yaml.isMap : Yaml → Bool
  | Yaml.map _ => true
  | _ => false

/-- Association-list lookup: `d.get(k)` / `k in d` on a parsed mapping.
Parsed dicts have distinct keys, so first-match lookup is exact. -/
def getKey (kvs : List (Key × Yaml)) (k : Key) : Option Yaml :=
  match kvs with
  | [] => none
  | (k2, v) :: rest => if k2 = k then some v else getKey rest k

/-- The messages the validator can append to its `errors` list, one
constructor per f-string template in the source. -/
inductive Msg where
  | missingName
  | missingOn
  | emptyOn
  | missingJobs
  | emptyJobs
  | emptyTriggerCfg (t : String)
  | emptyTriggerList (t : String)
  | jobNotDict (j : String)
  | jobMissingRunsOn (j : String)
  | jobMissingSteps (j : String)
  | jobEmptySteps (j : String)
deriving DecidableEq

/-- The exact Python string of each message template. -/
def Msg.render : Msg → String
  | Msg.missingName => "Missing required field: name"
  | Msg.missingOn => "Missing required field: on (triggers)"
  | Msg.emptyOn => "Empty on field - no triggers defined"
  | Msg.missingJobs => "Missing required field: jobs"
  | Msg.emptyJobs => "Empty jobs field - no jobs defined"
  | Msg.emptyTriggerCfg t => "Empty " ++ t ++ " trigger configuration"
  | Msg.emptyTriggerList t => "Empty " ++ t ++ " trigger list"
  | Msg.jobNotDict j => "Job " ++ j ++ " is not a dictionary"
  | Msg.jobMissingRunsOn j => "Job " ++ j ++ " missing runs-on field"
  | Msg.jobMissingSteps j => "Job " ++ j ++ " missing steps field"
  | Msg.jobEmptySteps j => "Job " ++ j ++ " has empty steps"

/-- Source: `on_field = workflow.get("on") or workflow.get(True)`.
Python `or` returns the right operand whenever the left is falsy, so a
present-but-falsy `"on"` value falls through to the `True` lookup. -/
def onFieldOf (kvs : List (Key × Yaml)) : Option Yaml :=
  match getKey kvs (Key.str ("on")) with
  | some v => if truthy v then some v else getKey kvs (Key.bool true)
  | none => getKey kvs (Key.bool true)

/-- Source, per trigger entry of a mapping-shaped `on` field:
`if isinstance(config, dict) and not config: ... append(f"Empty {trigger}
trigger configuration")` and
`elif isinstance(config, list) and not config: ... append(f"Empty {trigger}
trigger list")`. -/
def trigCheck : Key × Yaml → List Msg
  | (t, Yaml.map cfg) =>
      if cfg.isEmpty then [Msg.emptyTriggerCfg (Key.render t)] else []
  | (t, Yaml.seq xs) =>
      if xs.isEmpty then [Msg.emptyTriggerList (Key.render t)] else []
  | _ => []

/-- Source, per entry of the `jobs` mapping: a non-dict job value yields
`f"Job {job_name} is not a dictionary"` and `continue`; a dict job is
checked for `runs-on` membership, then `steps` membership, then
`elif not job_config["steps"]`. -/
def jobCheck : Key × Yaml → List Msg
  | (j, Yaml.map jc) =>
      (if (getKey jc (Key.str ("runs-on"))).isNone
        then [Msg.jobMissingRunsOn (Key.render j)] else [])
      ++ (match getKey jc (Key.str ("steps")) with
          | none => [Msg.jobMissingSteps (Key.render j)]
          | some st =>
              if truthy st then [] else [Msg.jobEmptySteps (Key.render j)])
  | (j, _) => [Msg.jobNotDict (Key.render j)]

/-- Rule evaluation over a top-level mapping, mirroring the body of
`validate_workflow` line by line.  The `errors` list grows in source
order: name check, `on` check (with its dead `elif` branch kept), jobs
presence check, trigger-configuration loop, jobs-structure loop.  The
jobs-structure loop calls `.items()` on `workflow["jobs"]`, which raises
(modelled by `Except.error ()`) when that value is not a dict. -/
def runRulesMap (kvs : List (Key × Yaml)) : Except Unit (List Msg) :=
  let onField := onFieldOf kvs
  let e1 := if (getKey kvs (Key.str ("name"))).isNone
              then [Msg.missingName] else []
  let e2 := if pyTruthy onField = false then [Msg.missingOn]
            else if pyTruthy onField = false then [Msg.emptyOn]
            else []
  let e3 := match getKey kvs (Key.str ("jobs")) with
            | none => [Msg.missingJobs]
            | some j => if truthy j then [] else [Msg.emptyJobs]
  let e4 := if pyTruthy onField then
              match onField with
              | some (Yaml.map ts) => ts.flatMap trigCheck
              | _ => []
            else []
  match getKey kvs (Key.str ("jobs")) with
  | none => Except.ok (e1 ++ e2 ++ e3 ++ e4)
  | some (Yaml.map jobs) =>
      Except.ok (e1 ++ e2 ++ e3 ++ e4 ++ jobs.flatMap jobCheck)
  | some _ => Except.error ()

/-- Rule evaluation over an arbitrary parsed tree.  A non-mapping top level
always raises in the source before the report is produced: `null`, booleans
and numbers raise TypeError at `"name" not in workflow`, and strings and
sequences pass that test but raise AttributeError at `workflow.get("on")`. -/
def runRules : Yaml → Except Unit (List Msg)
  | Yaml.map kvs => runRulesMap kvs
  | _ => Except.error ()

/-- Outcome of validating one document, as observable from the source:
a YAML syntax error (reported, no findings), an exception during rule
evaluation caught by the blanket handler (reported, no findings), or the
accumulated findings list. -/
inductive VResult where
  | parseError (msg : String)
  | crashed
  | report (findings : List Msg)
deriving DecidableEq

/-- `validate_workflow`, starting from the outcome of `yaml.safe_load`:
a syntax error short-circuits rule evaluation entirely. -/
def validate : Except String Yaml → VResult
  | Except.error m => VResult.parseError m
  | Except.ok w =>
      match runRules w with
      | Except.error _ => VResult.crashed
      | Except.ok errs => VResult.report errs

/-- The boolean the source returns: `True` (prints a check mark) exactly
when the `errors` list is empty; `False` on any finding, any YAML error,
and any caught exception. -/
def isValidDoc : VResult → Bool
  | VResult.report [] => true
  | _ => false

/-- Rule 1 in isolation: the name-presence check. -/
def nameErrs (kvs : List (Key × Yaml)) : List Msg :=
  if (getKey kvs (Key.str ("name"))).isNone then [Msg.missingName] else []

/-- Rules 2 and 3 in isolation: the `if not on_field / elif not on_field`
chain of the source. -/
def triggerErrs (kvs : List (Key × Yaml)) : List Msg :=
  if pyTruthy (onFieldOf kvs) = false then [Msg.missingOn]
  else if pyTruthy (onFieldOf kvs) = false then [Msg.emptyOn]
  else []

/-- Rules 5 and 6 in isolation: jobs presence and jobs non-emptiness. -/
def jobsFieldErrs (kvs : List (Key × Yaml)) : List Msg :=
  match getKey kvs (Key.str ("jobs")) with
  | none => [Msg.missingJobs]
  | some j => if truthy j then [] else [Msg.emptyJobs]

/-- Rule 4 in isolation: the trigger-configuration loop, guarded by the
truthiness and dict-ness of the located `on` field. -/
def triggerCfgErrs (kvs : List (Key × Yaml)) : List Msg :=
  if pyTruthy (onFieldOf kvs) then
    match onFieldOf kvs with
    | some (Yaml.map ts) => ts.flatMap trigCheck
    | _ => []
  else []

/-- Rule 7 in isolation: the per-job findings, in document order of job
declaration (empty when `jobs` is absent or not a mapping). -/
def jobsStructErrs (kvs : List (Key × Yaml)) : List Msg :=
  match getKey kvs (Key.str ("jobs")) with
  | some (Yaml.map jobs) => jobs.flatMap jobCheck
  | _ => []

/-- Whether rule evaluation runs to completion without an exception: the
top level must be a mapping and a present `jobs` value must be a mapping. -/
def rulesComplete : Yaml → Bool
  | Yaml.map kvs =>
      match getKey kvs (Key.str ("jobs")) with
      | some v => v.isMap
      | none => true
  | _ => false

/-- Modelled from the claim wording of C8, for comparison with `onFieldOf`:
whichever of the literal key and the boolean alias is present in the
top-level mapping is treated as the authoritative trigger value. -/
def specOnField (kvs : List (Key × Yaml)) : Option Yaml :=
  match getKey kvs (Key.str ("on")) with
  | some v => some v
  | none => getKey kvs (Key.bool true)

/-- Scenario A of the specification: `{name: CI, on: {push: {}},
jobs: {build: {runs-on: ubuntu, steps: [checkout]}}}`. -/
def scenarioA : Yaml :=
  Yaml.map
    [ (Key.str ("name"), Yaml.str ("CI")),
      (Key.str ("on"), Yaml.map [ (Key.str ("push"), Yaml.map []) ]),
      (Key.str ("jobs"), Yaml.map
        [ (Key.str ("build"), Yaml.map
            [ (Key.str ("runs-on"), Yaml.str ("ubuntu")),
              (Key.str ("steps"), Yaml.seq [ Yaml.str ("checkout") ]) ]) ]) ]

/-- A fully well-formed document: every rule passes. -/
def docOK : Yaml :=
  Yaml.map
    [ (Key.str ("name"), Yaml.str ("CI")),
      (Key.str ("on"), Yaml.str ("push")),
      (Key.str ("jobs"), Yaml.map
        [ (Key.str ("build"), Yaml.map
            [ (Key.str ("runs-on"), Yaml.str ("ubuntu")),
              (Key.str ("steps"), Yaml.seq [ Yaml.str ("checkout") ]) ]) ]) ]

/-- A document whose trigger field is present (`on: {}`) but empty, with
every other field well-formed. -/
def docEmptyOn : Yaml :=
  Yaml.map
    [ (Key.str ("name"), Yaml.str ("CI")),
      (Key.str ("on"), Yaml.map []),
      (Key.str ("jobs"), Yaml.map
        [ (Key.str ("build"), Yaml.map
            [ (Key.str ("runs-on"), Yaml.str ("ubuntu")),
              (Key.str ("steps"), Yaml.seq [ Yaml.str ("checkout") ]) ]) ]) ]

/-- A document with an empty-configured trigger and no `name` or `jobs`:
it makes findings of rules 4 and 5 coexist. -/
def docOrder : Yaml :=
  Yaml.map [ (Key.str ("on"), Yaml.map [ (Key.str ("push"), Yaml.map []) ]) ]

/-- A job mapping with `steps: null` (a falsy value that is not an empty
sequence). -/
def buildJobStepsNull : List (Key × Yaml) :=
  [ (Key.str ("runs-on"), Yaml.str ("ubuntu")),
    (Key.str ("steps"), Yaml.null) ]

/-- A document whose `build` job has `steps: null`. -/
def docStepsNull : Yaml :=
  Yaml.map
    [ (Key.str ("name"), Yaml.str ("CI")),
      (Key.str ("on"), Yaml.str ("push")),
      (Key.str ("jobs"), Yaml.map
        [ (Key.str ("build"), Yaml.map buildJobStepsNull) ]) ]

/-- A top-level mapping whose only key is a present-but-empty `"on"`. -/
def kvsOnEmpty : List (Key × Yaml) := [ (Key.str ("on"), Yaml.map []) ]

/-- A top-level mapping with only a `jobs` mapping holding one malformed
job. -/
def kvsJobsB : List (Key × Yaml) :=
  [ (Key.str ("jobs"), Yaml.map [ (Key.str ("b"), Yaml.null) ]) ]

/-- A top-level mapping with a truthy literal `"on"` key. -/
def kvsOnPush : List (Key × Yaml) := [ (Key.str ("on"), Yaml.str ("push")) ]

/-- A top-level mapping with only the boolean alias key, bound to null. -/
def kvsAliasNull : List (Key × Yaml) := [ (Key.bool true, Yaml.null) ]

/-- A top-level mapping with a falsy literal `"on"` key and a truthy
boolean alias key. -/
def kvsBothKeys : List (Key × Yaml) :=
  [ (Key.str ("on"), Yaml.map []), (Key.bool true, Yaml.str ("x")) ]

/-- The monolithic rule evaluation decomposes into the five independent
rule blocks, concatenated in source order. -/
theorem runRulesMap_decomp (kvs : List (Key × Yaml)) (l : List Msg)
    (h : runRulesMap kvs = Except.ok l) :
    l = nameErrs kvs ++ triggerErrs kvs ++ jobsFieldErrs kvs
        ++ triggerCfgErrs kvs ++ jobsStructErrs kvs := by
  unfold runRulesMap at h
  unfold nameErrs triggerErrs jobsFieldErrs triggerCfgErrs jobsStructErrs
  cases hj : getKey kvs (Key.str ("jobs")) with
  | none =>
      simp only [hj] at h ⊢
      injection h with h
      subst h
      simp [List.append_assoc]
  | some v =>
      cases v <;> simp only [hj] at h ⊢ <;>
      first
        | exact Except.noConfusion h
        | (injection h with h
           subst h
           simp [List.append_assoc])

/-- The dead `elif` of the source: the trigger block can only produce the
missing-trigger message or nothing. -/
theorem triggerErrs_cases (kvs : List (Key × Yaml)) :
    triggerErrs kvs = [Msg.missingOn] ∨ triggerErrs kvs = [] := by
  unfold triggerErrs
  cases h : pyTruthy (onFieldOf kvs) <;> simp [h]

theorem emptyOn_notMem_trigCheck (p : Key × Yaml) :
    Msg.emptyOn ∉ trigCheck p := by
  rcases p with ⟨t, v⟩
  cases v <;> simp [trigCheck]

theorem emptyOn_notMem_jobCheck (p : Key × Yaml) :
    Msg.emptyOn ∉ jobCheck p := by
  rcases p with ⟨j, v⟩
  cases v <;> simp [jobCheck]
  cases h : getKey _ (Key.str ("steps")) <;> simp [h]

theorem emptyOn_notMem_nameErrs (kvs : List (Key × Yaml)) :
    Msg.emptyOn ∉ nameErrs kvs := by
  unfold nameErrs
  split <;> simp

theorem emptyOn_notMem_triggerErrs (kvs : List (Key × Yaml)) :
    Msg.emptyOn ∉ triggerErrs kvs := by
  rcases triggerErrs_cases kvs with h | h <;> simp [h]

theorem emptyOn_notMem_jobsFieldErrs (kvs : List (Key × Yaml)) :
    Msg.emptyOn ∉ jobsFieldErrs kvs := by
  unfold jobsFieldErrs
  cases h : getKey kvs (Key.str ("jobs")) with
  | none => simp
  | some v => split <;> simp

theorem emptyOn_notMem_triggerCfgErrs (kvs : List (Key × Yaml)) :
    Msg.emptyOn ∉ triggerCfgErrs kvs := by
  unfold triggerCfgErrs
  cases hp : pyTruthy (onFieldOf kvs) with
  | false => simp
  | true =>
      simp only [if_pos rfl, if_true]
      cases ho : onFieldOf kvs with
      | none => simp
      | some v =>
          cases v <;> simp [List.mem_flatMap]
          intro a b hab
          exact emptyOn_notMem_trigCheck (a, b)

theorem emptyOn_notMem_jobsStructErrs (kvs : List (Key × Yaml)) :
    Msg.emptyOn ∉ jobsStructErrs kvs := by
  unfold jobsStructErrs
  cases hj : getKey kvs (Key.str ("jobs")) with
  | none => simp
  | some v =>
      cases v <;> simp [List.mem_flatMap]
      intro a b hab
      exact emptyOn_notMem_jobCheck (a, b)

/-- Claim C1, counterexample: Scenario A produces exactly the one
empty-trigger-configuration finding, yet the source judges the document
invalid (returns False), because every finding lives in the single
`errors` list and any finding at all fails the document; there is no
Warning severity that leaves a document valid. -/
theorem claim1_counterexample :
    runRules scenarioA = Except.ok [Msg.emptyTriggerCfg ("push")]
    ∧ isValidDoc (validate (Except.ok scenarioA)) = false
    ∧ Msg.render (Msg.emptyTriggerCfg ("push"))
        = "Empty push trigger configuration" :=
  ⟨rfl, rfl, rfl⟩

/-- Claim C1, amended: a successfully evaluated document is judged Valid
iff its findings list is empty; every finding, the trigger-configuration
emptiness finding included, makes the document Invalid. -/
theorem claim1 (w : Yaml) :
    isValidDoc (validate (Except.ok w)) = true
      ↔ runRules w = Except.ok ([] : List Msg) := by
  unfold validate
  cases h : runRules w with
  | error e => simp [isValidDoc, h]
  | ok l =>
      cases l with
      | nil => simp [isValidDoc, h]
      | cons a as => simp [isValidDoc, h]

/-- Claim C1, witness: a fully well-formed document is judged Valid. -/
theorem claim1_witness : isValidDoc (validate (Except.ok docOK)) = true :=
  (claim1 docOK).mpr rfl

/-- Claim C2, counterexample: a document whose trigger field is present but
empty (`on: {}`) gets exactly one finding, but it is the trigger-presence
message, not the trigger-emptiness message. -/
theorem claim2_counterexample :
    runRules docEmptyOn = Except.ok [Msg.missingOn]
    ∧ Msg.missingOn ≠ Msg.emptyOn
    ∧ Msg.render Msg.missingOn = "Missing required field: on (triggers)"
    ∧ Msg.render Msg.emptyOn = "Empty on field - no triggers defined" :=
  ⟨rfl, by decide, rfl, rfl⟩

/-- Claim C2, amended: whenever the located trigger field evaluates to a
falsy value (in particular when one of the two trigger keys is present with
an empty value), the trigger rules emit exactly one finding, namely the
trigger-presence message; the trigger-emptiness message is not among them,
and the presence message does reach the final report. -/
theorem claim2 (kvs : List (Key × Yaml))
    (_hpres : (getKey kvs (Key.str ("on"))).isSome = true
             ∨ (getKey kvs (Key.bool true)).isSome = true)
    (hfalsy : pyTruthy (onFieldOf kvs) = false) :
    triggerErrs kvs = [Msg.missingOn]
    ∧ Msg.emptyOn ∉ triggerErrs kvs
    ∧ ∀ l, runRulesMap kvs = Except.ok l → Msg.missingOn ∈ l := by
  have h2 : triggerErrs kvs = [Msg.missingOn] := by
    unfold triggerErrs
    simp [hfalsy]
  refine ⟨h2, by simp [h2], ?_⟩
  intro l h
  rw [runRulesMap_decomp kvs l h]
  simp [h2]

/-- Claim C2, witness: the amended statement at the concrete document
whose only key is a present-but-empty `"on"`. -/
theorem claim2_witness :
    triggerErrs kvsOnEmpty = [Msg.missingOn]
    ∧ Msg.emptyOn ∉ triggerErrs kvsOnEmpty
    ∧ Msg.missingOn ∈ [Msg.missingName, Msg.missingOn, Msg.missingJobs] := by
  have h := claim2 kvsOnEmpty (Or.inl rfl) rfl
  exact ⟨h.1, h.2.1, h.2.2 [Msg.missingName, Msg.missingOn, Msg.missingJobs] rfl⟩

/-- Claim C3, counterexample: in a document with an empty `push` trigger
configuration and no `jobs` key, the jobs-presence finding (rule 5) comes
out at index 1, before the trigger-configuration finding (rule 4) at
index 2 — the source checks jobs presence before the trigger-configuration
loop, so rule-4 findings do not precede rule-5/6 findings. -/
theorem claim3_counterexample :
    runRules docOrder
      = Except.ok [Msg.missingName, Msg.missingJobs, Msg.emptyTriggerCfg ("push")]
    ∧ ([Msg.missingName, Msg.missingJobs, Msg.emptyTriggerCfg ("push")]
        : List Msg)[1]? = some Msg.missingJobs
    ∧ ([Msg.missingName, Msg.missingJobs, Msg.emptyTriggerCfg ("push")]
        : List Msg)[2]? = some (Msg.emptyTriggerCfg ("push")) :=
  ⟨rfl, rfl, rfl⟩

/-- Claim C3, amended: findings appear in the fixed order name check,
trigger presence/emptiness, jobs presence/non-emptiness, trigger
configuration emptiness, then per-job findings; trigger-scoped and
job-scoped findings appear in document order of declaration within their
rule (the per-trigger and per-job loops fold over the association list in
order). -/
theorem claim3 (kvs : List (Key × Yaml)) (l : List Msg)
    (h : runRulesMap kvs = Except.ok l) :
    l = nameErrs kvs ++ triggerErrs kvs ++ jobsFieldErrs kvs
        ++ triggerCfgErrs kvs ++ jobsStructErrs kvs
    ∧ (∀ jobs, getKey kvs (Key.str ("jobs")) = some (Yaml.map jobs) →
        jobsStructErrs kvs = jobs.flatMap jobCheck)
    ∧ (∀ ts, onFieldOf kvs = some (Yaml.map ts) → truthy (Yaml.map ts) = true →
        triggerCfgErrs kvs = ts.flatMap trigCheck) := by
  refine ⟨runRulesMap_decomp kvs l h, ?_, ?_⟩
  · intro jobs hj
    unfold jobsStructErrs
    simp [hj]
  · intro ts hv ht
    unfold triggerCfgErrs
    simp [hv, pyTruthy, ht]

/-- Claim C3, witness: the amended statement at a concrete document with a
jobs mapping holding one malformed job. -/
theorem claim3_witness :
    ([Msg.missingName, Msg.missingOn, Msg.jobNotDict ("b")] : List Msg)
      = nameErrs kvsJobsB ++ triggerErrs kvsJobsB ++ jobsFieldErrs kvsJobsB
        ++ triggerCfgErrs kvsJobsB ++ jobsStructErrs kvsJobsB
    ∧ jobsStructErrs kvsJobsB
        = [ (Key.str ("b"), Yaml.null) ].flatMap jobCheck := by
  have h := claim3 kvsJobsB [Msg.missingName, Msg.missingOn, Msg.jobNotDict ("b")] rfl
  exact ⟨h.1, h.2.1 [ (Key.str ("b"), Yaml.null) ] rfl⟩

/-- Claim C4, counterexample: a document that deserializes to null or to a
sequence makes rule evaluation raise (TypeError at the membership test, or
AttributeError at the `get` call); the blanket handler reports failure
without any findings, so structural problems do not surface as findings. -/
theorem claim4_counterexample :
    runRules Yaml.null = Except.error ()
    ∧ validate (Except.ok Yaml.null) = VResult.crashed
    ∧ validate (Except.ok (Yaml.seq [])) = VResult.crashed
    ∧ validate (Except.ok (Yaml.map [ (Key.str ("name"), Yaml.str ("CI")),
        (Key.str ("jobs"), Yaml.seq [ Yaml.str ("build") ]) ]))
        = VResult.crashed :=
  ⟨rfl, rfl, rfl, rfl⟩

/-- Claim C4, amended: rule evaluation completes without a raised error
exactly when the top level is a mapping whose `jobs` value, if the key is
present, is itself a mapping; in every other case an exception is raised
and caught by the blanket handler, producing no findings report. -/
theorem claim4 (w : Yaml) :
    (∃ l, runRules w = Except.ok l) ↔ rulesComplete w = true := by
  cases w with
  | map kvs =>
      simp only [runRules, rulesComplete]
      unfold runRulesMap
      cases hj : getKey kvs (Key.str ("jobs")) with
      | none => simp [hj]
      | some v => cases v <;> simp [hj, Yaml.isMap]
  | null => simp [runRules, rulesComplete]
  | bool b => simp [runRules, rulesComplete]
  | int n => simp [runRules, rulesComplete]
  | str s => simp [runRules, rulesComplete]
  | seq xs => simp [runRules, rulesComplete]

/-- Claim C4, witness: the characterization applied at the fully
well-formed document. -/
theorem claim4_witness : rulesComplete docOK = true :=
  (claim4 docOK).mp ⟨[], rfl⟩

/-- Claim C5, confirmed: a parse failure short-circuits rule evaluation
entirely: the result is a ParseError carrying the syntax diagnostic, and it
is never a findings report. -/
theorem claim5 (m : String) :
    validate (Except.error m) = VResult.parseError m
    ∧ ∀ l, VResult.parseError m ≠ VResult.report l := by
  refine ⟨rfl, ?_⟩
  intro l h
  cases h

/-- Claim C5, witness: the parse-failure behaviour at a concrete syntax
diagnostic. -/
theorem claim5_witness :
    validate (Except.error ("mapping values are not allowed here"))
      = VResult.parseError ("mapping values are not allowed here") :=
  (claim5 ("mapping values are not allowed here")).1

/-- Claim C6, counterexample: a job whose `steps` value is null (present,
falsy, but not an empty sequence) is reported with the empty-steps finding,
so the empty-steps finding is not emitted exactly on empty sequences. -/
theorem claim6_counterexample :
    runRules docStepsNull = Except.ok [Msg.jobEmptySteps ("build")]
    ∧ getKey buildJobStepsNull (Key.str ("steps")) = some Yaml.null
    ∧ Yaml.null ≠ Yaml.seq [] := by
  refine ⟨rfl, rfl, ?_⟩
  intro h
  cases h

/-- Claim C6, amended: for a mapping-shaped job, the missing-steps finding
is emitted exactly when the `steps` key is absent, and the empty-steps
finding exactly when `steps` is present with a falsy value (empty sequence,
null, empty string, zero or false) — the two findings are distinct and
never emitted together for one job. -/
theorem claim6 (j : Key) (jc : List (Key × Yaml)) :
    (Msg.jobMissingSteps (Key.render j) ∈ jobCheck (j, Yaml.map jc)
      ↔ getKey jc (Key.str ("steps")) = none)
    ∧ (Msg.jobEmptySteps (Key.render j) ∈ jobCheck (j, Yaml.map jc)
      ↔ ∃ st, getKey jc (Key.str ("steps")) = some st ∧ truthy st = false)
    ∧ ¬ (Msg.jobMissingSteps (Key.render j) ∈ jobCheck (j, Yaml.map jc)
         ∧ Msg.jobEmptySteps (Key.render j) ∈ jobCheck (j, Yaml.map jc)) := by
  cases hr : (getKey jc (Key.str ("runs-on"))).isNone with
  | false =>
      cases hs : getKey jc (Key.str ("steps")) with
      | none => simp [jobCheck, hr, hs]
      | some st => cases ht : truthy st <;> simp [jobCheck, hr, hs, ht]
  | true =>
      cases hs : getKey jc (Key.str ("steps")) with
      | none => simp [jobCheck, hr, hs]
      | some st => cases ht : truthy st <;> simp [jobCheck, hr, hs, ht]

/-- Claim C6, witness: both directions of the characterization exercised at
concrete jobs. -/
theorem claim6_witness :
    Msg.jobMissingSteps ("build") ∈ jobCheck (Key.str ("build"), Yaml.map [])
    ∧ Msg.jobEmptySteps ("build")
        ∈ jobCheck (Key.str ("build"), Yaml.map buildJobStepsNull) :=
  ⟨(claim6 (Key.str ("build")) []).1.mpr rfl,
   (claim6 (Key.str ("build")) buildJobStepsNull).2.1.mpr ⟨Yaml.null, rfl, rfl⟩⟩

/-- Claim C7, confirmed: a job whose value is not a mapping gets exactly
the one not-a-dictionary finding, and none of the runs-on or steps
findings, because the loop moves to the next job (`continue`). -/
theorem claim7 (j : Key) (v : Yaml) (h : v.isMap = false) :
    jobCheck (j, v) = [Msg.jobNotDict (Key.render j)] := by
  cases v with
  | map kvs => simp [Yaml.isMap] at h
  | null => rfl
  | bool b => rfl
  | int n => rfl
  | str s => rfl
  | seq xs => rfl

/-- Claim C7, witness: the statement at a concrete sequence-valued job. -/
theorem claim7_witness :
    jobCheck (Key.str ("b"), Yaml.seq []) = [Msg.jobNotDict ("b")] :=
  claim7 (Key.str ("b")) (Yaml.seq []) rfl

/-- Claim C8, counterexample: with a present-but-empty literal `"on"` key
the source treats the trigger field as absent (the Python `or` falls
through on the falsy value), diverging from treating whichever key is
present as authoritative: the report contains the missing-trigger finding
although a trigger key is present. -/
theorem claim8_counterexample :
    onFieldOf kvsOnEmpty = none
    ∧ specOnField kvsOnEmpty = some (Yaml.map [])
    ∧ onFieldOf kvsOnEmpty ≠ specOnField kvsOnEmpty
    ∧ runRulesMap kvsOnEmpty
        = Except.ok [Msg.missingName, Msg.missingOn, Msg.missingJobs] := by
  refine ⟨rfl, rfl, ?_, rfl⟩
  intro h
  exact Option.noConfusion h

/-- Claim C8, amended: the trigger field is located by checking the literal
key and then the boolean alias, but a key only wins the lookup with a
truthy value: a truthy literal `"on"` value is authoritative; when the
literal key is absent, or present with a falsy value, the alias lookup
result is used instead. -/
theorem claim8 (kvs : List (Key × Yaml)) :
    (∀ v, getKey kvs (Key.str ("on")) = some v → truthy v = true →
        onFieldOf kvs = some v)
    ∧ (getKey kvs (Key.str ("on")) = none →
        onFieldOf kvs = getKey kvs (Key.bool true))
    ∧ (∀ v, getKey kvs (Key.str ("on")) = some v → truthy v = false →
        onFieldOf kvs = getKey kvs (Key.bool true)) := by
  unfold onFieldOf
  refine ⟨?_, ?_, ?_⟩
  · intro v hv ht
    simp [hv, ht]
  · intro hn
    simp [hn]
  · intro v hv ht
    simp [hv, ht]

/-- Claim C8, witness: all three branches of the lookup characterization at
concrete documents. -/
theorem claim8_witness :
    onFieldOf kvsOnPush = some (Yaml.str ("push"))
    ∧ onFieldOf kvsAliasNull = getKey kvsAliasNull (Key.bool true)
    ∧ onFieldOf kvsBothKeys = getKey kvsBothKeys (Key.bool true) :=
  ⟨(claim8 kvsOnPush).1 (Yaml.str ("push")) rfl rfl,
   (claim8 kvsAliasNull).2.1 rfl,
   (claim8 kvsBothKeys).2.2 (Yaml.map []) rfl rfl⟩

/-- Claim C9, confirmed: validation is deterministic — it is a pure
function of the parsed tree, so two evaluations of the same document yield
element-wise identical findings lists (same order, same messages, and with
them the same severities and scopes). -/
theorem claim9 (w : Yaml) (l1 l2 : List Msg)
    (h1 : runRules w = Except.ok l1) (h2 : runRules w = Except.ok l2) :
    l1 = l2 := by
  rw [h1] at h2
  injection h2

/-- Claim C9, witness: the determinism statement at Scenario A. -/
theorem claim9_witness :
    ([Msg.emptyTriggerCfg ("push")] : List Msg) = [Msg.emptyTriggerCfg ("push")] :=
  claim9 scenarioA [Msg.emptyTriggerCfg ("push")] [Msg.emptyTriggerCfg ("push")] rfl rfl

/-- Claim C10, confirmed: the message of the dead `elif` branch is never
emitted — its guard repeats the guard of the branch before it, so the
empty-trigger message cannot appear in any findings list; an empty or null
trigger field is always reported with the missing-trigger message. -/
theorem claim10 (w : Yaml) (l : List Msg) (h : runRules w = Except.ok l) :
    Msg.emptyOn ∉ l := by
  cases w with
  | map kvs =>
      rw [runRulesMap_decomp kvs l h]
      exact List.not_mem_append
        (List.not_mem_append
          (List.not_mem_append
            (List.not_mem_append (emptyOn_notMem_nameErrs kvs)
              (emptyOn_notMem_triggerErrs kvs))
            (emptyOn_notMem_jobsFieldErrs kvs))
          (emptyOn_notMem_triggerCfgErrs kvs))
        (emptyOn_notMem_jobsStructErrs kvs)
  | null => exact Except.noConfusion h
  | bool b => exact Except.noConfusion h
  | int n => exact Except.noConfusion h
  | str s => exact Except.noConfusion h
  | seq xs => exact Except.noConfusion h

/-- Claim C10, witness: the unreachable message is absent from the Scenario
A report. -/
theorem claim10_witness :
    Msg.emptyOn ∉ ([Msg.emptyTriggerCfg ("push")] : List Msg) :=
  claim10 scenarioA [Msg.emptyTriggerCfg ("push")] rfl
